import Mathlib

/-!
Verification of the Fleet package-policy service
(`x-pack/plugins/fleet/server/services/package_policy.ts`).

The service is embedded shallowly: JavaScript objects become Lean
structures, the saved-objects store and the agent-policy service become an
explicit `State` threaded through the operations, the remaining external
collaborators (package registry, template engine, external callbacks,
schema validation) become an `Env` record of functions, and `async`
functions that may `throw` become `Except Err` values.  Promise chains are
sequentialised; the only observable effects are the returned values and
the explicit state, so this is faithful for the properties proved below.
-/

namespace Fleet

/-! ## JavaScript-flavoured helpers -/

/-- A JavaScript object used as a plain map of template variables,
as an association list. -/
abbrev Vars := List (String × String)

/-- Setting one property on a JS object: overwrite the value at an
existing key, otherwise append the key. -/
def setKey (m : Vars) (kv : String × String) : Vars :=
  if (m.find? (fun p => p.1 == kv.1)).isSome then
    m.map (fun p => if p.1 == kv.1 then (p.1, kv.2) else p)
  else
    m ++ [kv]

/-- JS `Object.assign(base, overlay)`: copy the overlay's properties onto the
base, later properties overriding earlier ones. -/
def objectAssign (base overlay : Vars) : Vars :=
  overlay.foldl setKey base

/-- Property lookup on a JS object.  The last write at a key wins, which
matches the override order of `setKey`/`objectAssign`. -/
def getVar (m : Vars) (k : String) : Option String :=
  match m with
  | [] => none
  | (k', v) :: rest =>
    match getVar rest k with
    | some v' => some v'
    | none => if k' == k then some v else none

/-- JS `a || b` for an optional string `a`: an absent or empty string is
falsy, so it falls through to `b`. -/
def jsOr (a : Option String) (b : String) : String :=
  match a with
  | none => b
  | some s => if s == "" then b else s

/-- JS `options?.user?.username ?? 'system'` — only a missing user falls back
to the actor `"system"`. -/
def jsUser (user : Option String) : String :=
  user.getD "system"

/-- JS truthiness test for an optional string: `undefined` and `""` are
falsy. -/
def strFalsy (s : Option String) : Bool :=
  match s with
  | none => true
  | some s => s == ""

/-- String interpolation of a possibly-`undefined` JS value. -/
def optStr (s : Option String) : String :=
  s.getD "undefined"

/-- JS `st.split('.')[1]` — the second dot-separated segment of a dataset
identifier, `undefined` when there is none (source: `getDataset`). -/
def getDataset (st : String) : Option String :=
  (st.splitOn ".").get? 1

/-! ## Data model -/

/-- The `stream.data_stream` record of a stream. -/
structure DataStream where
  dataset : String
  type : String
deriving DecidableEq, Repr

/-- A package-policy input stream.  A new stream has no `id` and no
compiled artifact; both are filled in by the service. -/
structure PackagePolicyInputStream where
  id : Option String
  enabled : Bool
  data_stream : DataStream
  vars : Vars
  compiled_stream : Option String
deriving DecidableEq, Repr

/-- A package-policy input. -/
structure PackagePolicyInput where
  type : String
  enabled : Bool
  vars : Vars
  streams : List PackagePolicyInputStream
  compiled_input : Option String
deriving DecidableEq, Repr

/-- The `package` reference of a policy (name + version). -/
structure PackageRef where
  name : String
  version : String
deriving DecidableEq, Repr

/-- A new (not yet persisted) package policy.  The JS field `namespace`
is spelled `policyNamespace` because `namespace` is a Lean keyword. -/
structure NewPackagePolicy where
  name : String
  description : Option String
  policyNamespace : String
  enabled : Bool
  policy_id : String
  output_id : String
  package : Option PackageRef
  inputs : List PackagePolicyInput
deriving DecidableEq, Repr

/-- The attributes persisted in the saved-object store
(`PackagePolicySOAttributes`). -/
structure PackagePolicySOAttributes extends NewPackagePolicy where
  revision : Nat
  created_at : String
  created_by : String
  updated_at : String
  updated_by : String
deriving DecidableEq, Repr

/-- A package policy as returned by the service: the stored attributes
plus the storage id and version token. -/
structure PackagePolicy extends PackagePolicySOAttributes where
  id : String
  version : Option Nat
deriving DecidableEq, Repr

/-- An update request: the new attributes plus the caller-supplied
optimistic-concurrency version token (`UpdatePackagePolicy`). -/
structure UpdatePackagePolicy extends NewPackagePolicy where
  version : Option Nat
deriving DecidableEq, Repr

/-- Modelled from the spec: the agent-policy service's policy object, as
consumed by this service — id, managed flag, and the sibling package
policies used for the duplicate-name check. -/
structure AgentPolicy where
  id : String
  is_managed : Bool
  package_policies : List PackagePolicy
deriving DecidableEq, Repr

/-! ## Registry package metadata (read-only inputs to compilation) -/

/-- An entry of `policy_templates[0].inputs` of a `PackageInfo`. -/
structure RegistryInput where
  type : String
  template_path : Option String
deriving DecidableEq, Repr

/-- An entry of `policy_templates` of a `PackageInfo`. -/
structure PolicyTemplate where
  inputs : Option (List RegistryInput)
deriving DecidableEq, Repr

/-- An entry of `data_streams[i].streams` of a `PackageInfo`. -/
structure RegistryStream where
  input : String
  template_path : Option String
deriving DecidableEq, Repr

/-- An entry of `data_streams` of a `PackageInfo`. -/
structure PackageDataStream where
  dataset : String
  streams : Option (List RegistryStream)
deriving DecidableEq, Repr

/-- Registry-supplied package metadata (`PackageInfo`), restricted to the
fields this service reads. -/
structure PackageInfo where
  name : String
  version : String
  policy_templates : Option (List PolicyTemplate)
  data_streams : Option (List PackageDataStream)
deriving DecidableEq, Repr

/-- The registry's package record (`RegistryPackage`), used only as a key
for asset fetching. -/
structure RegistryPackage where
  name : String
  version : String
deriving DecidableEq, Repr

/-- An asset returned by `getAssetsData`; `buffer` is absent when the
asset has no content. -/
structure Asset where
  buffer : Option String
deriving DecidableEq, Repr

/-! ## Errors -/

/-- The errors thrown by the service.  Each constructor corresponds to one
`throw` site of the source (plus `external` for rejections propagated from
collaborators and `validationFailed` for schema validation); `Err.message`
renders the exact source message. -/
inductive Err where
  | agentPolicyNotFound
  | managedPolicyCreate (id : String)
  | duplicateName
  | limitedPackageExists (pkgName : String)
  | packagePolicyNotFound
  | managedPolicyUpdate (id : String)
  | inputTemplateNotFound (inputType : String)
  | loadInputTemplateFailed (path : String)
  | noDataStreams
  | datasetNotFound (datasetPath : Option String)
  | streamForInputNotFound (inputType : String)
  | streamTemplatePathNotFound (datasetPath : Option String)
  | loadStreamTemplateFailed (path : String) (datasetPath : Option String)
  | soNotFound
  | soVersionConflict
  | soAlreadyExists
  | external (msg : String)
  | validationFailed (msg : String)
deriving DecidableEq, Repr

/-- The message string carried by each thrown error, exactly as in the
source. -/
def Err.message : Err → String
  | .agentPolicyNotFound => "Agent policy not found"
  | .managedPolicyCreate id => "Cannot add integrations to managed policy " ++ id
  | .duplicateName => "There is already a package with the same name on this agent policy"
  | .limitedPackageExists pkgName =>
    "Unable to create package policy. Package '" ++ pkgName ++ "' already exists on this agent policy."
  | .packagePolicyNotFound => "Package policy not found"
  | .managedPolicyUpdate id => "Cannot update integrations of managed policy " ++ id
  | .inputTemplateNotFound t => "Input template not found, unable to find input type " ++ t
  | .loadInputTemplateFailed p => "Unable to load input template at /agent/input/" ++ p
  | .noDataStreams => "Stream template not found, no data streams"
  | .datasetNotFound d => "Stream template not found, unable to find dataset " ++ optStr d
  | .streamForInputNotFound t => "Stream template not found, unable to find stream for input " ++ t
  | .streamTemplatePathNotFound d => "Stream template path not found for dataset " ++ optStr d
  | .loadStreamTemplateFailed p d =>
    "Unable to load stream template " ++ p ++ " for dataset " ++ optStr d
  | .soNotFound => "Saved object not found"
  | .soVersionConflict => "Saved object version conflict"
  | .soAlreadyExists => "Saved object already exists"
  | .external msg => msg
  | .validationFailed msg => msg

/-- The class `IngestManagerError` is thrown only for the managed-policy checks; the
other sites throw a plain `Error`. -/
def Err.isIngestManagerError : Err → Bool
  | .managedPolicyCreate _ => true
  | .managedPolicyUpdate _ => true
  | _ => false

instance exceptDecEq {ε α : Type} [DecidableEq ε] [DecidableEq α] :
    DecidableEq (Except ε α) := fun a b =>
  match a, b with
  | .ok x, .ok y =>
    match decEq x y with
    | isTrue h => isTrue (by rw [h])
    | isFalse h => isFalse (fun hc => h (Except.ok.inj hc))
  | .error x, .error y =>
    match decEq x y with
    | isTrue h => isTrue (by rw [h])
    | isFalse h => isFalse (fun hc => h (Except.error.inj hc))
  | .ok _, .error _ => isFalse (fun hc => Except.noConfusion hc)
  | .error _, .ok _ => isFalse (fun hc => Except.noConfusion hc)

/-! ## Store, agent-policy collaborator, and environment -/

/-- A record of the saved-object store: id, opaque version token
(modelled as a counter), and attributes. -/
structure SavedObject where
  id : String
  soVersion : Nat
  attributes : PackagePolicySOAttributes
deriving DecidableEq, Repr

/-- Modelled from the spec: the explicit state of the two stateful
collaborators — the saved-object document store (§6 "Document store") and
the agent-policy service (§6 "Agent Policy service").  Calls to
`assignPackagePolicies`, `unassignPackagePolicies` and `bumpRevision` are
recorded in logs so that theorems can count them. -/
structure State where
  savedObjects : List SavedObject
  agentPolicies : List AgentPolicy
  assignLog : List (String × List String × Bool)
  unassignLog : List (String × List String)
  bumpLog : List String
deriving DecidableEq, Repr

/-- Modelled from the spec: `agentPolicyService.get` — lookup by id,
`null` when absent. -/
def agentPolicyServiceGet (st : State) (id : String) : Option AgentPolicy :=
  st.agentPolicies.find? (fun p => p.id == id)

/-- Modelled from the spec: `agentPolicyService.assignPackagePolicies`;
its only effect visible to this service is recorded in the log. -/
def agentPolicyAssign (st : State) (agentPolicyId : String) (ids : List String)
    (bumpRevision : Bool) : State :=
  { st with assignLog := st.assignLog ++ [(agentPolicyId, ids, bumpRevision)] }

/-- Modelled from the spec: `agentPolicyService.unassignPackagePolicies`. -/
def agentPolicyUnassign (st : State) (agentPolicyId : String) (ids : List String) : State :=
  { st with unassignLog := st.unassignLog ++ [(agentPolicyId, ids)] }

/-- Modelled from the spec: `agentPolicyService.bumpRevision`; one log
entry per invocation. -/
def agentPolicyBumpRevision (st : State) (agentPolicyId : String) : State :=
  { st with bumpLog := st.bumpLog ++ [agentPolicyId] }

/-- Modelled from the spec: `soClient.get` — the stored record, if any. -/
def soGet (st : State) (id : String) : Option SavedObject :=
  st.savedObjects.find? (fun so => so.id == id)

/-- Modelled from the spec: `soClient.create` with an explicit id —
fails when the id is taken, otherwise appends the new record. -/
def soCreate (st : State) (id : String) (attributes : PackagePolicySOAttributes) :
    Except Err (SavedObject × State) :=
  if (soGet st id).isSome then
    .error .soAlreadyExists
  else
    let so : SavedObject := { id := id, soVersion := 1, attributes := attributes }
    .ok (so, { st with savedObjects := st.savedObjects ++ [so] })

/-- Does a caller-supplied version token conflict with the stored one?
An absent token never conflicts. -/
def versionConflict (requested : Option Nat) (stored : Nat) : Bool :=
  match requested with
  | none => false
  | some v => v != stored

/-- Modelled from the spec: `soClient.update` — a shallow merge of the
given attribute changes onto the stored attributes, conditioned on the
caller-supplied version token (optimistic concurrency). -/
def soUpdate (st : State) (id : String) (requestedVersion : Option Nat)
    (change : PackagePolicySOAttributes → PackagePolicySOAttributes) :
    Except Err (SavedObject × State) :=
  match soGet st id with
  | none => .error .soNotFound
  | some so =>
    if versionConflict requestedVersion so.soVersion then
      .error .soVersionConflict
    else
      let so' : SavedObject :=
        { so with soVersion := so.soVersion + 1, attributes := change so.attributes }
      .ok (so', { st with
        savedObjects := st.savedObjects.map (fun x => if x.id == id then so' else x) })

/-- Modelled from the spec: `soClient.delete` — fails when the record is
absent. -/
def soDelete (st : State) (id : String) : Except Err State :=
  if (soGet st id).isSome then
    .ok { st with savedObjects := st.savedObjects.filter (fun so => !(so.id == id)) }
  else
    .error .soNotFound

/-- An external callback (`ExternalCallback`); a rejection carries an
opaque message. -/
abbrev Callback := NewPackagePolicy → Except String NewPackagePolicy

/-- The two external-callback kinds this service runs. -/
inductive CallbackType where
  | packagePolicyCreate
  | packagePolicyUpdate
deriving DecidableEq, Repr

/-- Modelled from the spec: the stateless external collaborators (§6) —
package registry/install service, template engine, schema validation and
registered external callbacks.  Fallible collaborators reject with an
opaque message. -/
structure Env where
  ensureInstalledPackage : String → Except String Unit
  getPackageInfo : String → String → Except String PackageInfo
  fetchInfo : String → String → Except String RegistryPackage
  getAssetsData : RegistryPackage → (String → Bool) → Option String → Except String (List Asset)
  compileTemplate : Vars → String → String
  isPackageLimited : PackageInfo → Bool
  doesAgentPolicyAlreadyIncludePackage : AgentPolicy → String → Bool
  getExternalCallbacks : CallbackType → List Callback
  validateNewPackagePolicy : NewPackagePolicy → Except String NewPackagePolicy
  validateUpdatePackagePolicy : NewPackagePolicy → Except String NewPackagePolicy

/-- Wrap a collaborator rejection as a thrown error. -/
def liftExternal (r : Except String α) : Except Err α :=
  match r with
  | .ok a => .ok a
  | .error msg => .error (.external msg)

/-! ## Stream-id assignment and template compilation -/

/-- Source function `assignStreamIdToInput`: every stream receives the derived identifier
`{input.type}-{stream.data_stream.dataset}-{packagePolicyId}`. -/
def assignStreamIdToInput (packagePolicyId : String) (input : PackagePolicyInput) :
    PackagePolicyInput :=
  { input with
    streams := input.streams.map (fun stream =>
      { stream with
        id := some (input.type ++ "-" ++ stream.data_stream.dataset ++ "-" ++ packagePolicyId) }) }

/-- The inputs of the first policy template of a package, as read by
`pkgInfo.policy_templates?.[0]?.inputs`. -/
def firstTemplateInputs (pkgInfo : PackageInfo) : List RegistryInput :=
  match pkgInfo.policy_templates with
  | none => []
  | some templates =>
    match templates.head? with
    | none => []
    | some t => t.inputs.getD []

/-- Source function `_compilePackagePolicyInput`: absent artifact for a disabled input or
a package without input templates; otherwise select the template matching
the input's type, fetch its asset and render it with the input's
variables. -/
def _compilePackagePolicyInput (env : Env) (registryPkgInfo : RegistryPackage)
    (pkgInfo : PackageInfo) (input : PackagePolicyInput) : Except Err (Option String) :=
  if !input.enabled || (firstTemplateInputs pkgInfo).length == 0 then
    .ok none
  else
    match (firstTemplateInputs pkgInfo).find? (fun pkgInput => pkgInput.type == input.type) with
    | none => .error (.inputTemplateNotFound input.type)
    | some packageInput =>
      if strFalsy packageInput.template_path then
        .ok none
      else
        match liftExternal (env.getAssetsData registryPkgInfo
            (fun path => path.endsWith ("/agent/input/" ++ packageInput.template_path.getD ""))
            none) with
        | .error e => .error e
        | .ok assets =>
          match assets.head? with
          | none => .error (.loadInputTemplateFailed (packageInput.template_path.getD ""))
          | some asset =>
            match asset.buffer with
            | none => .error (.loadInputTemplateFailed (packageInput.template_path.getD ""))
            | some text =>
              .ok (some (env.compileTemplate (objectAssign [] input.vars) text))

/-- Source function `_compilePackageStream`: absent artifact for a disabled stream;
otherwise select the package's data stream matching the dataset, the
stream definition matching the input's type, fetch its template asset and
render it with the input's variables overlaid by the stream's variables. -/
def _compilePackageStream (env : Env) (registryPkgInfo : RegistryPackage)
    (pkgInfo : PackageInfo) (input : PackagePolicyInput)
    (stream : PackagePolicyInputStream) : Except Err PackagePolicyInputStream :=
  if !stream.enabled then
    .ok { stream with compiled_stream := none }
  else
    match pkgInfo.data_streams with
    | none => .error .noDataStreams
    | some packageDataStreams =>
      match packageDataStreams.find?
          (fun pkgDataStream => pkgDataStream.dataset == stream.data_stream.dataset) with
      | none => .error (.datasetNotFound (getDataset stream.data_stream.dataset))
      | some packageDataStream =>
        match (packageDataStream.streams.getD []).find?
            (fun pkgStream => pkgStream.input == input.type) with
        | none => .error (.streamForInputNotFound input.type)
        | some streamFromPkg =>
          if strFalsy streamFromPkg.template_path then
            .error (.streamTemplatePathNotFound (getDataset stream.data_stream.dataset))
          else
            match liftExternal (env.getAssetsData registryPkgInfo
                (fun path => path.endsWith (streamFromPkg.template_path.getD ""))
                (getDataset stream.data_stream.dataset)) with
            | .error e => .error e
            | .ok assets =>
              match assets.head? with
              | none => .error (.loadStreamTemplateFailed (streamFromPkg.template_path.getD "")
                  (getDataset stream.data_stream.dataset))
              | some pkgStreamTemplate =>
                match pkgStreamTemplate.buffer with
                | none => .error (.loadStreamTemplateFailed (streamFromPkg.template_path.getD "")
                    (getDataset stream.data_stream.dataset))
                | some text =>
                  .ok { stream with compiled_stream := some (env.compileTemplate
                    (objectAssign (objectAssign [] input.vars) stream.vars) text) }

/-- The per-stream fan-out of `_compilePackageStreams`, with `Promise.all`
sequentialised. -/
def compileStreamsList (env : Env) (registryPkgInfo : RegistryPackage) (pkgInfo : PackageInfo)
    (input : PackagePolicyInput) :
    List PackagePolicyInputStream → Except Err (List PackagePolicyInputStream)
  | [] => .ok []
  | stream :: rest =>
    match _compilePackageStream env registryPkgInfo pkgInfo input stream with
    | .error e => .error e
    | .ok stream' =>
      match compileStreamsList env registryPkgInfo pkgInfo input rest with
      | .error e => .error e
      | .ok rest' => .ok (stream' :: rest')

/-- Source function `_compilePackageStreams`: compile every stream of the input. -/
def _compilePackageStreams (env : Env) (registryPkgInfo : RegistryPackage)
    (pkgInfo : PackageInfo) (input : PackagePolicyInput) :
    Except Err (List PackagePolicyInputStream) :=
  compileStreamsList env registryPkgInfo pkgInfo input input.streams

/-- The per-input fan-out of `compilePackagePolicyInputs`, with
`Promise.all` sequentialised. -/
def compileInputsList (env : Env) (registryPkgInfo : RegistryPackage) (pkgInfo : PackageInfo) :
    List PackagePolicyInput → Except Err (List PackagePolicyInput)
  | [] => .ok []
  | input :: rest =>
    match _compilePackagePolicyInput env registryPkgInfo pkgInfo input with
    | .error e => .error e
    | .ok compiledInput =>
      match _compilePackageStreams env registryPkgInfo pkgInfo input with
      | .error e => .error e
      | .ok compiledStreams =>
        match compileInputsList env registryPkgInfo pkgInfo rest with
        | .error e => .error e
        | .ok rest' =>
          .ok ({ input with compiled_input := compiledInput, streams := compiledStreams } :: rest')

/-- Source method `compilePackagePolicyInputs`: fetch the registry record, then compile
every input and its streams. -/
def compilePackagePolicyInputs (env : Env) (pkgInfo : PackageInfo)
    (inputs : List PackagePolicyInput) : Except Err (List PackagePolicyInput) :=
  match liftExternal (env.fetchInfo pkgInfo.name pkgInfo.version) with
  | .error e => .error e
  | .ok registryPkgInfo => compileInputsList env registryPkgInfo pkgInfo inputs

/-! ## The service operations -/

/-- Options of `PackagePolicyService.create`. -/
structure CreateOptions where
  id : Option String := none
  user : Option String := none
  bumpRevision : Option Bool := none
deriving DecidableEq, Repr

/-- Flatten a stored record into the service's return shape
`{ id, version, ...attributes }`. -/
def soToPackagePolicy (so : SavedObject) : PackagePolicy :=
  { toPackagePolicySOAttributes := so.attributes, id := so.id, version := some so.soVersion }

/-- Source method `PackagePolicyService.get`. -/
def packagePolicyGet (st : State) (id : String) : Option PackagePolicy :=
  (soGet st id).map soToPackagePolicy

/-- The package-installation / limited-package / compilation step of
`create`, entered only when `packagePolicy.package?.name` is truthy. -/
def createCompileStep (env : Env) (st : State) (packagePolicy : NewPackagePolicy)
    (pkg : PackageRef) (inputs : List PackagePolicyInput) :
    Except Err (List PackagePolicyInput) :=
  match liftExternal (env.ensureInstalledPackage pkg.name) with
  | .error e => .error e
  | .ok _ =>
    match liftExternal (env.getPackageInfo pkg.name pkg.version) with
    | .error e => .error e
    | .ok pkgInfo =>
      if env.isPackageLimited pkgInfo then
        match agentPolicyServiceGet st packagePolicy.policy_id with
        | some agentPolicy =>
          if env.doesAgentPolicyAlreadyIncludePackage agentPolicy pkgInfo.name then
            .error (.limitedPackageExists pkgInfo.name)
          else
            compilePackagePolicyInputs env pkgInfo inputs
        | none => compilePackagePolicyInputs env pkgInfo inputs
      else
        compilePackagePolicyInputs env pkgInfo inputs

/-- The compilation step of `create`, entered only when the policy
references a package with a (truthy) name. -/
def createInputsStep (env : Env) (st : State) (packagePolicy : NewPackagePolicy)
    (inputs : List PackagePolicyInput) : Except Err (List PackagePolicyInput) :=
  match packagePolicy.package with
  | some pkg =>
    if pkg.name == "" then .ok inputs
    else createCompileStep env st packagePolicy pkg inputs
  | none => .ok inputs

/-- Source method `PackagePolicyService.create`.  Here `freshId` stands for the `uuid.v4()`
draw and `now` for `new Date().toISOString()`. -/
def create (env : Env) (st : State) (packagePolicy : NewPackagePolicy)
    (freshId : String) (now : String) (options : CreateOptions) :
    Except Err (PackagePolicy × State) :=
  match agentPolicyServiceGet st packagePolicy.policy_id with
  | none => .error .agentPolicyNotFound
  | some parentAgentPolicy =>
    if parentAgentPolicy.is_managed then
      .error (.managedPolicyCreate parentAgentPolicy.id)
    else if (parentAgentPolicy.package_policies.find?
        (fun siblingPackagePolicy => siblingPackagePolicy.name == packagePolicy.name)).isSome then
      .error .duplicateName
    else
      match createInputsStep env st packagePolicy
          (packagePolicy.inputs.map (assignStreamIdToInput (jsOr options.id freshId))) with
      | .error e => .error e
      | .ok inputs =>
        match soCreate st (jsOr options.id freshId)
            { toNewPackagePolicy := { packagePolicy with inputs := inputs },
              revision := 1,
              created_at := now, created_by := jsUser options.user,
              updated_at := now, updated_by := jsUser options.user } with
        | .error e => .error e
        | .ok (newSo, st1) =>
          .ok (soToPackagePolicy newSo,
            agentPolicyAssign st1 packagePolicy.policy_id [newSo.id]
              (options.bumpRevision.getD true))

/-- Modelled from the spec: `soClient.bulkCreate` — per-item create, a
failed item yields an error entry without stopping the batch. -/
def soBulkCreate (st : State) :
    List (String × PackagePolicySOAttributes) → List (Except Err SavedObject) × State
  | [] => ([], st)
  | (id, attributes) :: rest =>
    match soCreate st id attributes with
    | .ok (so, st1) =>
      let (results, st2) := soBulkCreate st1 rest
      (.ok so :: results, st2)
    | .error e =>
      let (results, st1) := soBulkCreate st rest
      (.error e :: results, st1)

/-- The successful entries of a saved-object bulk-create result
(the `!so.error && so.attributes` filter of `bulkCreate`). -/
def exceptOk (r : Except Err SavedObject) : Option SavedObject :=
  match r with
  | .ok so => some so
  | .error _ => none

/-- The per-item records handed to `soClient.bulkCreate`: fresh id,
stream ids assigned, `policy_id` overwritten with the `agentPolicyId`
argument, revision 1, and the shared batch timestamp. -/
def bulkCreateItems (packagePolicies : List NewPackagePolicy) (agentPolicyId : String)
    (freshIds : List String) (now : String) (user : Option String) :
    List (String × PackagePolicySOAttributes) :=
  (packagePolicies.zip freshIds).map (fun pair =>
    (pair.2,
      ({ toNewPackagePolicy :=
           { pair.1 with
             inputs := pair.1.inputs.map (assignStreamIdToInput pair.2),
             policy_id := agentPolicyId },
         revision := 1,
         created_at := now, created_by := jsUser user,
         updated_at := now, updated_by := jsUser user } : PackagePolicySOAttributes)))

/-- Source method `PackagePolicyService.bulkCreate`.  Here `freshIds` stands for the
per-item `uuid.v4()` draws and `now` for the single
`new Date().toISOString()` taken before the batch. -/
def bulkCreate (st : State) (packagePolicies : List NewPackagePolicy) (agentPolicyId : String)
    (freshIds : List String) (now : String) (user : Option String)
    (bumpRevision : Option Bool) : List PackagePolicy × State :=
  (((soBulkCreate st
        (bulkCreateItems packagePolicies agentPolicyId freshIds now user)).1.filterMap
      exceptOk).map soToPackagePolicy,
   agentPolicyAssign
     (soBulkCreate st (bulkCreateItems packagePolicies agentPolicyId freshIds now user)).2
     agentPolicyId
     (((soBulkCreate st
          (bulkCreateItems packagePolicies agentPolicyId freshIds now user)).1.filterMap
        exceptOk).map (fun so => so.id))
     (bumpRevision.getD true))

/-- The compilation step of `update`, entered only when the policy
references a package with a (truthy) name. -/
def updateCompileStep (env : Env) (packagePolicy : UpdatePackagePolicy)
    (inputs : List PackagePolicyInput) : Except Err (List PackagePolicyInput) :=
  match packagePolicy.package with
  | some pkg =>
    if pkg.name == "" then .ok inputs
    else
      match liftExternal (env.getPackageInfo pkg.name pkg.version) with
      | .error e => .error e
      | .ok pkgInfo => compilePackagePolicyInputs env pkgInfo inputs
  | none => .ok inputs

/-- Source method `PackagePolicyService.update`.  Here `now` stands for
`new Date().toISOString()`. -/
def update (env : Env) (st : State) (id : String) (packagePolicy : UpdatePackagePolicy)
    (now : String) (user : Option String) : Except Err (PackagePolicy × State) :=
  match packagePolicyGet st id with
  | none => .error .packagePolicyNotFound
  | some oldPackagePolicy =>
    match agentPolicyServiceGet st packagePolicy.policy_id with
    | none => .error .agentPolicyNotFound
    | some parentAgentPolicy =>
      if parentAgentPolicy.is_managed then
        .error (.managedPolicyUpdate id)
      else if (parentAgentPolicy.package_policies.find?
          (fun siblingPackagePolicy =>
            siblingPackagePolicy.id != id
              && siblingPackagePolicy.name == packagePolicy.name)).isSome then
        .error .duplicateName
      else
        match updateCompileStep env packagePolicy
            (packagePolicy.inputs.map (assignStreamIdToInput oldPackagePolicy.id)) with
        | .error e => .error e
        | .ok inputs =>
          match soUpdate st id packagePolicy.version (fun old =>
            { old with
              toNewPackagePolicy := { packagePolicy.toNewPackagePolicy with inputs := inputs },
              revision := oldPackagePolicy.revision + 1,
              updated_at := now,
              updated_by := jsUser user }) with
          | .error e => .error e
          | .ok (_, st1) =>
            match packagePolicyGet (agentPolicyBumpRevision st1 packagePolicy.policy_id) id with
            | some reloaded =>
              .ok (reloaded, agentPolicyBumpRevision st1 packagePolicy.policy_id)
            | none => .error .packagePolicyNotFound

/-- Options of `PackagePolicyService.delete`. -/
structure DeleteOptions where
  user : Option String := none
  skipUnassignFromAgentPolicies : Option Bool := none
deriving DecidableEq, Repr

/-- One entry of `DeletePackagePoliciesResponse`. -/
structure DeleteResultEntry where
  id : String
  name : Option String
  success : Bool
  error : Option Err
deriving DecidableEq, Repr

/-- The body of `delete`'s per-id `try` block: fetch (throw when absent),
optionally unassign, then delete from the store. -/
def deleteOne (st : State) (id : String) (options : DeleteOptions) :
    Except Err (String × State) :=
  match packagePolicyGet st id with
  | none => .error .packagePolicyNotFound
  | some packagePolicy =>
    match soDelete
        (if options.skipUnassignFromAgentPolicies.getD false then st
         else agentPolicyUnassign st packagePolicy.policy_id [packagePolicy.id]) id with
    | .error e => .error e
    | .ok st2 => .ok (packagePolicy.name, st2)

/-- Source method `PackagePolicyService.delete`: ids processed sequentially, each
failure caught and converted into a per-id failure entry. -/
def delete (st : State) (ids : List String) (options : DeleteOptions) :
    List DeleteResultEntry × State :=
  match ids with
  | [] => ([], st)
  | id :: rest =>
    match deleteOne st id options with
    | .ok (name, st1) =>
      ({ id := id, name := some name, success := true, error := none }
         :: (delete st1 rest options).1,
       (delete st1 rest options).2)
    | .error e =>
      ({ id := id, name := none, success := false, error := some e }
         :: (delete st rest options).1,
       (delete st rest options).2)

/-- Source method `PackagePolicyService.runExternalCallbacks`: thread the policy through
the registered callbacks for the kind, validating each step's result
against the kind's schema; with no callbacks the input is returned
unchanged. -/
def runExternalCallbacksLoop (env : Env) (externalCallbackType : CallbackType)
    (acc : NewPackagePolicy) : List Callback → Except Err NewPackagePolicy
  | [] => .ok acc
  | callback :: rest =>
    match liftExternal (callback acc) with
    | .error e => .error e
    | .ok result =>
      let validated : Except Err NewPackagePolicy :=
        match externalCallbackType with
        | .packagePolicyCreate =>
          match env.validateNewPackagePolicy result with
          | .ok v => .ok v
          | .error msg => .error (.validationFailed msg)
        | .packagePolicyUpdate =>
          match env.validateUpdatePackagePolicy result with
          | .ok v => .ok v
          | .error msg => .error (.validationFailed msg)
      match validated with
      | .error e => .error e
      | .ok updated => runExternalCallbacksLoop env externalCallbackType updated rest

/-- Source method `PackagePolicyService.runExternalCallbacks`. -/
def runExternalCallbacks (env : Env) (externalCallbackType : CallbackType)
    (newPackagePolicy : NewPackagePolicy) : Except Err NewPackagePolicy :=
  let externalCallbacks := env.getExternalCallbacks externalCallbackType
  if externalCallbacks.length > 0 then
    runExternalCallbacksLoop env externalCallbackType newPackagePolicy externalCallbacks
  else
    .ok newPackagePolicy

/-- Runs `n` successive updates of the same policy (the folding used by the
revision claim); each element supplies the update payload, the timestamp
and the acting user of one call. -/
def iterateUpdates (env : Env) (st : State) (id : String) :
    List (UpdatePackagePolicy × String × Option String) → Except Err State
  | [] => .ok st
  | (packagePolicy, now, user) :: rest =>
    match update env st id packagePolicy now user with
    | .error e => .error e
    | .ok (_, st1) => iterateUpdates env st1 id rest

/-- The stored revision counter of a policy, if the record exists. -/
def soRevision (st : State) (id : String) : Option Nat :=
  (soGet st id).map (fun so => so.attributes.revision)

/-! ## Lemmas about JS object assignment -/

theorem getVar_mem_of_isSome {m : Vars} {k : String} (h : (getVar m k).isSome = true) :
    ∃ p ∈ m, p.1 = k := by
  induction m with
  | nil => simp [getVar] at h
  | cons hd tl ih =>
    rw [getVar] at h
    cases htl : getVar tl k with
    | some v' =>
      rcases ih (by rw [htl]; rfl) with ⟨p, hp, hpk⟩
      exact ⟨p, List.mem_cons_of_mem _ hp, hpk⟩
    | none =>
      rw [htl] at h
      by_cases hk : hd.1 = k
      · exact ⟨hd, List.mem_cons_self .., hk⟩
      · rw [if_neg (by simpa using hk)] at h
        simp at h

theorem map_eq_self_of_no_key {m : Vars} {k0 v0 : String}
    (h : ∀ p ∈ m, (p.1 == k0) = false) :
    m.map (fun p => if p.1 == k0 then (p.1, v0) else p) = m := by
  induction m with
  | nil => rfl
  | cons hd tl ih =>
    have h1 := h hd (List.mem_cons_self ..)
    have h2 := ih (fun p hp => h p (List.mem_cons_of_mem _ hp))
    rw [List.map_cons, if_neg (by simp [h1]), h2]

theorem getVar_replaceAll {m : Vars} {k0 v0 k : String}
    (hmem : (m.find? (fun p => p.1 == k0)).isSome = true) :
    getVar (m.map (fun p => if p.1 == k0 then (p.1, v0) else p)) k =
      if k0 == k then some v0 else getVar m k := by
  induction m with
  | nil => simp at hmem
  | cons hd tl ih =>
    by_cases hhd0 : hd.1 = k0
    · have hfhd : (if hd.1 == k0 then (hd.1, v0) else hd) = (hd.1, v0) := by
        rw [if_pos (by simpa using hhd0)]
      rw [List.map_cons, hfhd]
      simp only [getVar]
      by_cases htl0 : (tl.find? (fun p => p.1 == k0)).isSome = true
      · rw [ih htl0]
        by_cases hk : k0 = k
        · subst hk; simp [hhd0]
        · have hne : (k0 == k) = false := beq_eq_false_iff_ne.2 hk
          have hhdk : (hd.1 == k) = false := beq_eq_false_iff_ne.2 (by rw [hhd0]; exact hk)
          cases hgv : getVar tl k with
          | some v => simp [hne]
          | none => simp [hne, hhdk]
      · have htlnone : tl.find? (fun p => p.1 == k0) = none :=
          Option.not_isSome_iff_eq_none.1 (by simpa using htl0)
        have hnokey : ∀ p ∈ tl, (p.1 == k0) = false := by
          intro p hp
          simpa using List.find?_eq_none.1 htlnone p hp
        rw [map_eq_self_of_no_key hnokey]
        by_cases hk : k0 = k
        · subst hk
          cases hgv : getVar tl k0 with
          | none => simp [hgv, hhd0]
          | some v =>
            rcases getVar_mem_of_isSome (by rw [hgv]; rfl) with ⟨p, hp, hpk⟩
            have := hnokey p hp
            rw [hpk] at this
            simp at this
        · have hne : (k0 == k) = false := beq_eq_false_iff_ne.2 hk
          have hhdk : (hd.1 == k) = false := beq_eq_false_iff_ne.2 (by rw [hhd0]; exact hk)
          cases hgv : getVar tl k with
          | some v => simp [hgv, hne]
          | none => simp [hgv, hne, hhdk]
    · have hghd : (hd.1 == k0) = false := beq_eq_false_iff_ne.2 hhd0
      have htl0 : (tl.find? (fun p => p.1 == k0)).isSome = true := by
        rw [List.find?_cons_of_neg _ (by simp [hghd])] at hmem
        exact hmem
      have hfhd : (if hd.1 == k0 then (hd.1, v0) else hd) = hd := by
        rw [if_neg (by simp [hghd])]
      rw [List.map_cons, hfhd]
      simp only [getVar]
      rw [ih htl0]
      by_cases hk : k0 = k
      · subst hk; simp
      · have hne : (k0 == k) = false := beq_eq_false_iff_ne.2 hk
        cases hgv : getVar tl k with
        | some v => simp [hgv, hne]
        | none => simp [hgv, hne]

theorem getVar_append_single (m : Vars) (k0 v0 k : String)
    (hnone : m.find? (fun p => p.1 == k0) = none) :
    getVar (m ++ [(k0, v0)]) k = if k0 == k then some v0 else getVar m k := by
  induction m with
  | nil => simp [getVar]
  | cons hd tl ih =>
    have hghd : (hd.1 == k0) = false := by
      by_cases h : (hd.1 == k0) = true
      · rw [List.find?_cons_of_pos _ (by simpa using h)] at hnone
        cases hnone
      · simpa using h
    have htlnone : tl.find? (fun p => p.1 == k0) = none := by
      rw [List.find?_cons_of_neg _ (by simp [hghd])] at hnone
      exact hnone
    rw [List.cons_append]
    simp only [getVar]
    rw [ih htlnone]
    by_cases hk : k0 = k
    · subst hk; simp
    · have hne : (k0 == k) = false := beq_eq_false_iff_ne.2 hk
      cases hgv : getVar tl k with
      | some v => simp [hgv, hne]
      | none => simp [hgv, hne]

theorem getVar_setKey (m : Vars) (k0 v0 k : String) :
    getVar (setKey m (k0, v0)) k = if k0 == k then some v0 else getVar m k := by
  rw [setKey]
  by_cases hmem : (m.find? (fun p => p.1 == (k0, v0).1)).isSome = true
  · rw [if_pos hmem]
    exact getVar_replaceAll (by simpa using hmem)
  · rw [if_neg hmem]
    exact getVar_append_single m k0 v0 k
      (Option.not_isSome_iff_eq_none.1 (by simpa using hmem))

/-- Lookup after `Object.assign`: a key bound by the overlay takes the overlay's
(last) value, any other key keeps the base's value. -/
theorem getVar_objectAssign (base overlay : Vars) (k : String) :
    getVar (objectAssign base overlay) k =
      match getVar overlay k with
      | some v => some v
      | none => getVar base k := by
  induction overlay generalizing base with
  | nil => simp [objectAssign, getVar]
  | cons hd tl ih =>
    rw [objectAssign, List.foldl_cons]
    have : tl.foldl setKey (setKey base hd) = objectAssign (setKey base hd) tl := rfl
    rw [this, ih, getVar]
    rcases getVar tl k with _ | v
    · simp only []
      rw [getVar_setKey base hd.1 hd.2 k]
      rcases hk : hd.1 == k <;> simp
    · simp

/-! ## Preservation lemmas for template compilation -/

/-- Every stream of every input carries the derived identifier for
`packagePolicyId` (the conclusion of `assignStreamIdToInput`). -/
def streamIdsAssigned (packagePolicyId : String) (inputs : List PackagePolicyInput) : Prop :=
  ∀ input ∈ inputs, ∀ stream ∈ input.streams,
    stream.id = some (input.type ++ "-" ++ stream.data_stream.dataset ++ "-" ++ packagePolicyId)

theorem streamIdsAssigned_map_assign (packagePolicyId : String)
    (inputs : List PackagePolicyInput) :
    streamIdsAssigned packagePolicyId (inputs.map (assignStreamIdToInput packagePolicyId)) := by
  intro input hmem stream hs
  rcases List.mem_map.1 hmem with ⟨input0, _, rfl⟩
  rcases List.mem_map.1 hs with ⟨stream0, _, rfl⟩
  rfl

theorem compilePackageStream_preserves {env : Env} {rp : RegistryPackage} {pkg : PackageInfo}
    {input : PackagePolicyInput} {s s' : PackagePolicyInputStream}
    (h : _compilePackageStream env rp pkg input s = .ok s') :
    s'.id = s.id ∧ s'.data_stream = s.data_stream := by
  rw [_compilePackageStream] at h
  split at h
  · cases h
    exact ⟨rfl, rfl⟩
  · split at h
    · cases h
    · split at h
      · cases h
      · split at h
        · cases h
        · split at h
          · cases h
          · split at h
            · cases h
            · split at h
              · cases h
              · split at h
                · cases h
                · cases h
                  exact ⟨rfl, rfl⟩

theorem compileStreamsList_preserves {env : Env} {rp : RegistryPackage} {pkg : PackageInfo}
    {input : PackagePolicyInput} {streams out : List PackagePolicyInputStream}
    (h : compileStreamsList env rp pkg input streams = .ok out) :
    ∀ s' ∈ out, ∃ s ∈ streams, s'.id = s.id ∧ s'.data_stream = s.data_stream := by
  induction streams generalizing out with
  | nil =>
    rw [compileStreamsList] at h
    cases h
    intro s' hs'
    simp at hs'
  | cons hd tl ih =>
    rw [compileStreamsList] at h
    split at h
    · exact absurd h (by simp)
    · next hhd =>
      split at h
      · exact absurd h (by simp)
      · next htl =>
        cases h
        intro s' hs'
        rcases List.mem_cons.1 hs' with rfl | hmem
        · exact ⟨hd, List.mem_cons_self .., compilePackageStream_preserves hhd⟩
        · rcases ih htl s' hmem with ⟨s, hsmem, hpres⟩
          exact ⟨s, List.mem_cons_of_mem _ hsmem, hpres⟩

theorem compileInputsList_preserves {env : Env} {rp : RegistryPackage} {pkg : PackageInfo}
    {inputs out : List PackagePolicyInput}
    (h : compileInputsList env rp pkg inputs = .ok out) :
    ∀ input' ∈ out, ∃ input ∈ inputs, input'.type = input.type ∧
      ∀ s' ∈ input'.streams, ∃ s ∈ input.streams, s'.id = s.id ∧ s'.data_stream = s.data_stream := by
  induction inputs generalizing out with
  | nil =>
    rw [compileInputsList] at h
    cases h
    intro input' h'
    simp at h'
  | cons hd tl ih =>
    rw [compileInputsList] at h
    split at h
    · exact absurd h (by simp)
    · next hin =>
      split at h
      · exact absurd h (by simp)
      · next hstreams =>
        split at h
        · exact absurd h (by simp)
        · next htl =>
          cases h
          intro input' h'
          rcases List.mem_cons.1 h' with rfl | hmem
          · refine ⟨hd, List.mem_cons_self .., rfl, ?_⟩
            intro s' hs'
            exact compileStreamsList_preserves hstreams s' hs'
          · rcases ih htl input' hmem with ⟨input, hinmem, hty, hstr⟩
            exact ⟨input, List.mem_cons_of_mem _ hinmem, hty, hstr⟩

theorem compilePackagePolicyInputs_preserves_streamIds {env : Env} {pkg : PackageInfo}
    {inputs out : List PackagePolicyInput} {packagePolicyId : String}
    (h : compilePackagePolicyInputs env pkg inputs = .ok out)
    (hids : streamIdsAssigned packagePolicyId inputs) :
    streamIdsAssigned packagePolicyId out := by
  rw [compilePackagePolicyInputs] at h
  split at h
  · exact absurd h (by simp)
  · intro input' hmem stream' hs'
    rcases compileInputsList_preserves h input' hmem with ⟨input, hinmem, hty, hstr⟩
    rcases hstr stream' hs' with ⟨stream, hsmem, hid, hds⟩
    rw [hid, hds, hty]
    exact hids input hinmem stream hsmem

/-! ## Store lemmas -/

theorem soCreate_ok_spec {st : State} {id : String} {attrs : PackagePolicySOAttributes}
    {so : SavedObject} {st1 : State} (h : soCreate st id attrs = .ok (so, st1)) :
    so = { id := id, soVersion := 1, attributes := attrs } ∧
    st1 = { st with savedObjects := st.savedObjects ++ [so] } ∧
    soGet st id = none ∧ soGet st1 id = some so := by
  rw [soCreate] at h
  split at h
  · cases h
  · next hnone =>
    cases h
    have hget : soGet st id = none := Option.not_isSome_iff_eq_none.1 (by simpa using hnone)
    refine ⟨rfl, rfl, hget, ?_⟩
    rw [soGet] at hget ⊢
    show (st.savedObjects ++
        [({ id := id, soVersion := 1, attributes := attrs } : SavedObject)]).find?
      (fun so => so.id == id) = _
    rw [List.find?_append, hget]
    simp

theorem find?_map_replace {l : List SavedObject} {id : String} {so so' : SavedObject}
    (h : l.find? (fun x => x.id == id) = some so) (hid : so'.id = id) :
    (l.map (fun x => if x.id == id then so' else x)).find? (fun x => x.id == id) = some so' := by
  induction l with
  | nil => cases h
  | cons hd tl ih =>
    by_cases hhd : (hd.id == id) = true
    · rw [List.map_cons, if_pos hhd]
      exact List.find?_cons_of_pos _ (by simpa using hid)
    · rw [List.find?_cons_of_neg _ (by simpa using hhd)] at h
      rw [List.map_cons, if_neg hhd]
      rw [List.find?_cons_of_neg _ (by simpa using hhd)]
      exact ih h

theorem soUpdate_ok_spec {st : State} {id : String} {v : Option Nat}
    {change : PackagePolicySOAttributes → PackagePolicySOAttributes}
    {so' : SavedObject} {st1 : State} (h : soUpdate st id v change = .ok (so', st1)) :
    ∃ so, soGet st id = some so ∧ so.id = id ∧
      so' = { so with soVersion := so.soVersion + 1, attributes := change so.attributes } ∧
      st1 = { st with
        savedObjects := st.savedObjects.map (fun x => if x.id == id then so' else x) } ∧
      soGet st1 id = some so' := by
  rw [soUpdate] at h
  split at h
  · cases h
  · next so hso =>
    split at h
    · cases h
    · cases h
      have hsoid : so.id = id := by
        have := List.find?_some hso
        simpa using this
      refine ⟨so, hso, hsoid, rfl, rfl, ?_⟩
      rw [soGet]
      exact find?_map_replace hso (by simpa using hsoid)

/-! ## The `create` master lemma -/

theorem createInputsStep_preserves {env : Env} {st : State} {packagePolicy : NewPackagePolicy}
    {inputs0 out : List PackagePolicyInput} {packagePolicyId : String}
    (h : createInputsStep env st packagePolicy inputs0 = .ok out)
    (hids : streamIdsAssigned packagePolicyId inputs0) :
    streamIdsAssigned packagePolicyId out := by
  rw [createInputsStep] at h
  split at h
  · split at h
    · cases h
      exact hids
    · rw [createCompileStep] at h
      split at h
      · cases h
      · split at h
        · cases h
        · split at h
          · split at h
            · split at h
              · cases h
              · exact compilePackagePolicyInputs_preserves_streamIds h hids
            · exact compilePackagePolicyInputs_preserves_streamIds h hids
          · exact compilePackagePolicyInputs_preserves_streamIds h hids
  · cases h
    exact hids

theorem create_ok_spec {env : Env} {st : State} {packagePolicy : NewPackagePolicy}
    {freshId now : String} {options : CreateOptions} {res : PackagePolicy} {st' : State}
    (h : create env st packagePolicy freshId now options = .ok (res, st')) :
    res.id = jsOr options.id freshId ∧
    res.revision = 1 ∧
    res.created_at = now ∧ res.updated_at = now ∧
    res.created_by = jsUser options.user ∧ res.updated_by = jsUser options.user ∧
    streamIdsAssigned res.id res.inputs ∧
    soGet st' res.id =
      some { id := res.id, soVersion := 1, attributes := res.toPackagePolicySOAttributes } := by
  rw [create] at h
  split at h
  · cases h
  · split at h
    · cases h
    · split at h
      · cases h
      · split at h
        · cases h
        · next inputs hcomp =>
          split at h
          · cases h
          · next newSo st1 hso =>
            cases h
            obtain ⟨hsoeq, hst1, hsoNone, hget1⟩ := soCreate_ok_spec hso
            subst hsoeq
            refine ⟨rfl, rfl, rfl, rfl, rfl, rfl, ?_, ?_⟩
            · exact createInputsStep_preserves hcomp
                (streamIdsAssigned_map_assign (jsOr options.id freshId) packagePolicy.inputs)
            · exact hget1

/-! ## Which errors compilation can produce -/

theorem liftExternal_error {α : Type} {r : Except String α} {e : Err}
    (h : liftExternal r = .error e) : ∃ msg, e = .external msg := by
  rw [liftExternal.eq_def] at h
  split at h
  · cases h
  · cases h
    exact ⟨_, rfl⟩

theorem compilePackagePolicyInput_error_ne_dup {env : Env} {rp : RegistryPackage}
    {pkg : PackageInfo} {input : PackagePolicyInput} {e : Err}
    (h : _compilePackagePolicyInput env rp pkg input = .error e) :
    e ≠ .duplicateName := by
  rw [_compilePackagePolicyInput] at h
  split at h
  · cases h
  · split at h
    · cases h
      intro hc
      cases hc
    · split at h
      · cases h
      · split at h
        · next heq =>
          cases h
          rcases liftExternal_error heq with ⟨msg, rfl⟩
          intro hc
          cases hc
        · split at h
          · cases h
            intro hc
            cases hc
          · split at h
            · cases h
              intro hc
              cases hc
            · cases h

theorem compilePackageStream_error_ne_dup {env : Env} {rp : RegistryPackage}
    {pkg : PackageInfo} {input : PackagePolicyInput} {s : PackagePolicyInputStream} {e : Err}
    (h : _compilePackageStream env rp pkg input s = .error e) :
    e ≠ .duplicateName := by
  rw [_compilePackageStream] at h
  split at h
  · cases h
  · split at h
    · cases h
      intro hc
      cases hc
    · split at h
      · cases h
        intro hc
        cases hc
      · split at h
        · cases h
          intro hc
          cases hc
        · split at h
          · cases h
            intro hc
            cases hc
          · split at h
            · next heq =>
              cases h
              rcases liftExternal_error heq with ⟨msg, rfl⟩
              intro hc
              cases hc
            · split at h
              · cases h
                intro hc
                cases hc
              · split at h
                · cases h
                  intro hc
                  cases hc
                · cases h

theorem compileStreamsList_error_ne_dup {env : Env} {rp : RegistryPackage} {pkg : PackageInfo}
    {input : PackagePolicyInput} {streams : List PackagePolicyInputStream} {e : Err}
    (h : compileStreamsList env rp pkg input streams = .error e) :
    e ≠ .duplicateName := by
  induction streams with
  | nil => rw [compileStreamsList] at h; cases h
  | cons hd tl ih =>
    rw [compileStreamsList] at h
    split at h
    · next heq =>
      cases h
      exact compilePackageStream_error_ne_dup heq
    · split at h
      · next heq =>
        cases h
        exact ih heq
      · cases h

theorem compileInputsList_error_ne_dup {env : Env} {rp : RegistryPackage} {pkg : PackageInfo}
    {inputs : List PackagePolicyInput} {e : Err}
    (h : compileInputsList env rp pkg inputs = .error e) :
    e ≠ .duplicateName := by
  induction inputs with
  | nil => rw [compileInputsList] at h; cases h
  | cons hd tl ih =>
    rw [compileInputsList] at h
    split at h
    · next heq =>
      cases h
      exact compilePackagePolicyInput_error_ne_dup heq
    · split at h
      · next heq =>
        cases h
        exact compileStreamsList_error_ne_dup heq
      · split at h
        · next heq =>
          cases h
          exact ih heq
        · cases h

theorem compilePackagePolicyInputs_error_ne_dup {env : Env} {pkg : PackageInfo}
    {inputs : List PackagePolicyInput} {e : Err}
    (h : compilePackagePolicyInputs env pkg inputs = .error e) :
    e ≠ .duplicateName := by
  rw [compilePackagePolicyInputs] at h
  split at h
  · next heq =>
    cases h
    rcases liftExternal_error heq with ⟨msg, rfl⟩
    intro hc
    cases hc
  · exact compileInputsList_error_ne_dup h

theorem updateCompileStep_error_ne_dup {env : Env} {packagePolicy : UpdatePackagePolicy}
    {inputs : List PackagePolicyInput} {e : Err}
    (h : updateCompileStep env packagePolicy inputs = .error e) :
    e ≠ .duplicateName := by
  rw [updateCompileStep] at h
  split at h
  · split at h
    · cases h
    · split at h
      · next heq =>
        cases h
        rcases liftExternal_error heq with ⟨msg, rfl⟩
        intro hc
        cases hc
      · exact compilePackagePolicyInputs_error_ne_dup h
  · cases h

theorem soUpdate_error {st : State} {id : String} {v : Option Nat}
    {change : PackagePolicySOAttributes → PackagePolicySOAttributes} {e : Err}
    (h : soUpdate st id v change = .error e) :
    e = .soNotFound ∨ e = .soVersionConflict := by
  rw [soUpdate] at h
  split at h
  · cases h
    exact Or.inl rfl
  · split at h
    · cases h
      exact Or.inr rfl
    · cases h

/-! ## The `update` master lemma -/

theorem update_ok_spec {env : Env} {st : State} {id : String}
    {packagePolicy : UpdatePackagePolicy} {now : String} {user : Option String}
    {res : PackagePolicy} {st' : State}
    (h : update env st id packagePolicy now user = .ok (res, st')) :
    ∃ so, soGet st id = some so ∧
      res.revision = so.attributes.revision + 1 ∧
      res.created_at = so.attributes.created_at ∧
      res.created_by = so.attributes.created_by ∧
      res.updated_at = now ∧ res.updated_by = jsUser user ∧
      soRevision st' id = some (so.attributes.revision + 1) ∧
      st'.bumpLog = st.bumpLog ++ [packagePolicy.policy_id] := by
  rw [update] at h
  split at h
  · cases h
  · next oldPackagePolicy hold =>
    split at h
    · cases h
    · split at h
      · cases h
      · split at h
        · cases h
        · split at h
          · cases h
          · next inputs hcomp =>
            split at h
            · cases h
            · next upd st1 hsoup =>
              split at h
              · next reloaded hrel =>
                cases h
                obtain ⟨so, hso, hsoid, hupd, hst1, hget1⟩ := soUpdate_ok_spec hsoup
                have holdeq : oldPackagePolicy = soToPackagePolicy so := by
                  rw [packagePolicyGet, hso] at hold
                  exact (Option.some.inj hold).symm
                have hrel' :
                    packagePolicyGet (agentPolicyBumpRevision st1 packagePolicy.policy_id) id
                      = some (soToPackagePolicy upd) := by
                  show (soGet st1 id).map soToPackagePolicy = _
                  rw [hget1]
                  rfl
                have hres : res = soToPackagePolicy upd := by
                  rw [hrel] at hrel'
                  exact Option.some.inj hrel'
                subst hres
                refine ⟨so, hso, ?_, ?_, ?_, ?_, ?_, ?_, ?_⟩
                · rw [hupd, holdeq]
                  rfl
                · rw [hupd]
                  rfl
                · rw [hupd]
                  rfl
                · rw [hupd]
                  rfl
                · rw [hupd]
                  rfl
                · show (soGet st1 id).map (fun so => so.attributes.revision) = _
                  rw [hget1, hupd, holdeq]
                  rfl
                · show st1.bumpLog ++ [packagePolicy.policy_id] = _
                  rw [hst1]
              · cases h

/-! ## Iterated updates -/

theorem iterateUpdates_revision {env : Env} {id : String} :
    ∀ (ps : List (UpdatePackagePolicy × String × Option String)) (st : State) (r : Nat)
      (st' : State),
      soRevision st id = some r →
      iterateUpdates env st id ps = .ok st' →
      soRevision st' id = some (r + ps.length) ∧
      st'.bumpLog.length = st.bumpLog.length + ps.length := by
  intro ps
  induction ps with
  | nil =>
    intro st r st' hrev hit
    rw [iterateUpdates] at hit
    cases hit
    simpa using hrev
  | cons hd tl ih =>
    intro st r st' hrev hit
    obtain ⟨p, pnow, puser⟩ := hd
    rw [iterateUpdates] at hit
    split at hit
    · cases hit
    · next res1 st1 hupd =>
      obtain ⟨so, hso, _, _, _, _, _, hrev1, hbump⟩ := update_ok_spec hupd
      have hsor : so.attributes.revision = r := by
        rw [soRevision, hso] at hrev
        simpa using hrev
      rcases ih st1 (r + 1) st' (by rw [← hsor]; exact hrev1) hit with ⟨h1, h2⟩
      constructor
      · rw [h1]
        congr 1
        simp only [List.length_cons]
        omega
      · rw [h2, hbump]
        simp only [List.length_append, List.length_cons, List.length_nil]
        omega

/-! ## Delete lemmas -/

theorem delete_map_id (ids : List String) :
    ∀ (st : State) (options : DeleteOptions),
      (delete st ids options).1.map (fun e => e.id) = ids := by
  induction ids with
  | nil => intro st options; rfl
  | cons hd tl ih =>
    intro st options
    rw [delete]
    split
    · simp [ih]
    · simp [ih]

theorem deleteOne_not_found {st : State} {id : String} {options : DeleteOptions}
    (h : packagePolicyGet st id = none) :
    deleteOne st id options = .error .packagePolicyNotFound := by
  rw [deleteOne, h]

theorem delete_head_success {st : State} {id : String} {rest : List String}
    {options : DeleteOptions} {name : String} {st1 : State}
    (h : deleteOne st id options = .ok (name, st1)) :
    delete st (id :: rest) options =
      ({ id := id, name := some name, success := true, error := none }
         :: (delete st1 rest options).1,
       (delete st1 rest options).2) := by
  rw [delete, h]

theorem delete_head_failure {st : State} {id : String} {rest : List String}
    {options : DeleteOptions} {e : Err}
    (h : deleteOne st id options = .error e) :
    delete st (id :: rest) options =
      ({ id := id, name := none, success := false, error := some e }
         :: (delete st rest options).1,
       (delete st rest options).2) := by
  rw [delete, h]

/-! ## Bulk-create lemmas -/

theorem soBulkCreate_spec (items : List (String × PackagePolicySOAttributes)) :
    ∀ (st : State),
      (∀ so ∈ (soBulkCreate st items).1.filterMap exceptOk, ∃ it ∈ items, so.attributes = it.2) ∧
      ∃ extra, (soBulkCreate st items).2.savedObjects = st.savedObjects ++ extra ∧
        ∀ so ∈ extra, ∃ it ∈ items, so.attributes = it.2 := by
  induction items with
  | nil =>
    intro st
    refine ⟨?_, [], by simp [soBulkCreate], by simp⟩
    intro so hso
    simp [soBulkCreate] at hso
  | cons hd tl ih =>
    intro st
    obtain ⟨id, attrs⟩ := hd
    rw [soBulkCreate]
    split
    · next so st1 heq =>
      obtain ⟨hsoeq, hst1, _, _⟩ := soCreate_ok_spec heq
      rcases ih st1 with ⟨ihmem, extra', hextra', ihex⟩
      constructor
      · intro x hx
        rw [List.filterMap_cons] at hx
        simp only [exceptOk] at hx
        rcases List.mem_cons.1 hx with rfl | hmem
        · exact ⟨(id, attrs), List.mem_cons_self .., by rw [hsoeq]⟩
        · rcases ihmem x hmem with ⟨it, hit, hattr⟩
          exact ⟨it, List.mem_cons_of_mem _ hit, hattr⟩
      · refine ⟨so :: extra', ?_, ?_⟩
        · show (soBulkCreate st1 tl).2.savedObjects = _
          rw [hextra', hst1]
          simp
        · intro x hx
          rcases List.mem_cons.1 hx with rfl | hmem
          · exact ⟨(id, attrs), List.mem_cons_self .., by rw [hsoeq]⟩
          · rcases ihex x hmem with ⟨it, hit, hattr⟩
            exact ⟨it, List.mem_cons_of_mem _ hit, hattr⟩
    · next e heq =>
      rcases ih st with ⟨ihmem, extra', hextra', ihex⟩
      constructor
      · intro x hx
        rw [List.filterMap_cons] at hx
        simp only [exceptOk] at hx
        rcases ihmem x hx with ⟨it, hit, hattr⟩
        exact ⟨it, List.mem_cons_of_mem _ hit, hattr⟩
      · refine ⟨extra', hextra', ?_⟩
        intro x hx
        rcases ihex x hx with ⟨it, hit, hattr⟩
        exact ⟨it, List.mem_cons_of_mem _ hit, hattr⟩

theorem bulkCreateItems_fields {packagePolicies : List NewPackagePolicy}
    {agentPolicyId : String} {freshIds : List String} {now : String} {user : Option String} :
    ∀ it ∈ bulkCreateItems packagePolicies agentPolicyId freshIds now user,
      it.2.policy_id = agentPolicyId ∧ it.2.created_at = now ∧ it.2.updated_at = now ∧
      it.2.revision = 1 ∧ it.2.created_by = jsUser user ∧ it.2.updated_by = jsUser user := by
  intro it hit
  rw [bulkCreateItems] at hit
  rcases List.mem_map.1 hit with ⟨pair, _, rfl⟩
  exact ⟨rfl, rfl, rfl, rfl, rfl, rfl⟩

/-! ## Concrete sample data for the example theorems -/

/-- Is an `Except` a success?  Used to discharge concrete runs. -/
def isOkE {α : Type} : Except Err α → Bool
  | .ok _ => true
  | .error _ => false

/-- A concrete environment: one input template and one stream template,
a template engine that records its variable bindings, no external
callbacks. -/
def sampleEnv : Env :=
  { ensureInstalledPackage := fun _ => .ok (),
    getPackageInfo := fun n v => .ok
      { name := n, version := v,
        policy_templates :=
          some [{ inputs := some [{ type := "logfile", template_path := some "logfile.yml.hbs" }] }],
        data_streams :=
          some [{ dataset := "nginx.access",
                  streams := some [{ input := "logfile", template_path := some "log.yml.hbs" }] }] },
    fetchInfo := fun n v => .ok { name := n, version := v },
    getAssetsData := fun _ _ _ => .ok [{ buffer := some "tmpl" }],
    compileTemplate := fun vars text =>
      text ++ String.join (vars.map (fun p => "|" ++ p.1 ++ "=" ++ p.2)),
    isPackageLimited := fun _ => false,
    doesAgentPolicyAlreadyIncludePackage := fun _ _ => false,
    getExternalCallbacks := fun _ => [],
    validateNewPackagePolicy := fun p => .ok p,
    validateUpdatePackagePolicy := fun p => .ok p }

/-- The registry package record used by the sample environment. -/
def sampleRegistryPkg : RegistryPackage :=
  { name := "nginx", version := "1.0.0" }

/-- The package metadata returned by `sampleEnv.getPackageInfo`. -/
def samplePkgInfo : PackageInfo :=
  { name := "nginx", version := "1.0.0",
    policy_templates :=
      some [{ inputs := some [{ type := "logfile", template_path := some "logfile.yml.hbs" }] }],
    data_streams :=
      some [{ dataset := "nginx.access",
              streams := some [{ input := "logfile", template_path := some "log.yml.hbs" }] }] }

/-- An enabled stream whose variables collide with the input's on `a`. -/
def sampleStream : PackagePolicyInputStream :=
  { id := none, enabled := true,
    data_stream := { dataset := "nginx.access", type := "logs" },
    vars := [("a", "2"), ("b", "3")], compiled_stream := none }

/-- An enabled `logfile` input holding `sampleStream`. -/
def sampleInput : PackagePolicyInput :=
  { type := "logfile", enabled := true, vars := [("a", "1")],
    streams := [sampleStream], compiled_input := none }

/-- A new policy for agent policy `ap1` referencing the sample package. -/
def samplePolicy : NewPackagePolicy :=
  { name := "nginx-1", description := none, policyNamespace := "default",
    enabled := true, policy_id := "ap1", output_id := "out1",
    package := some { name := "nginx", version := "1.0.0" },
    inputs := [sampleInput] }

/-- A store with no records and one unmanaged, empty agent policy `ap1`. -/
def sampleState : State :=
  { savedObjects := [],
    agentPolicies := [{ id := "ap1", is_managed := false, package_policies := [] }],
    assignLog := [], unassignLog := [], bumpLog := [] }

/-- The attributes of an already-persisted policy `p1` at revision 1. -/
def sampleStoredAttrs : PackagePolicySOAttributes :=
  { name := "nginx-1", description := none, policyNamespace := "default",
    enabled := true, policy_id := "ap1", output_id := "out1",
    package := none, inputs := [],
    revision := 1, created_at := "t0", created_by := "system",
    updated_at := "t0", updated_by := "system" }

/-- The stored record of policy `p1`. -/
def sampleStoredSo : SavedObject :=
  { id := "p1", soVersion := 1, attributes := sampleStoredAttrs }

/-- A store holding `p1` (revision 1), whose agent policy `ap1` lists it
as its only sibling. -/
def sampleState2 : State :=
  { savedObjects := [sampleStoredSo],
    agentPolicies :=
      [{ id := "ap1", is_managed := false,
         package_policies := [soToPackagePolicy sampleStoredSo] }],
    assignLog := [], unassignLog := [], bumpLog := [] }

/-- An update payload keeping the name `nginx-1` and supplying no version
token. -/
def sampleUpdate : UpdatePackagePolicy :=
  { name := "nginx-1", description := none, policyNamespace := "default",
    enabled := true, policy_id := "ap1", output_id := "out1",
    package := none, inputs := [], version := none }

/-- The stored record of a second policy `p2` named `nginx-2`. -/
def c7OtherSo : SavedObject :=
  { id := "p2", soVersion := 1, attributes := { sampleStoredAttrs with name := "nginx-2" } }

/-- The agent policy holding both `p1` and `p2` as siblings. -/
def c7AgentPolicy : AgentPolicy :=
  { id := "ap1", is_managed := false,
    package_policies := [soToPackagePolicy sampleStoredSo, soToPackagePolicy c7OtherSo] }

/-- A store holding `p1` and `p2` on the same agent policy. -/
def c7State : State :=
  { savedObjects := [sampleStoredSo, c7OtherSo],
    agentPolicies := [c7AgentPolicy],
    assignLog := [], unassignLog := [], bumpLog := [] }

/-- An update of `p1` requesting the sibling's name `nginx-2`. -/
def c7Update : UpdatePackagePolicy :=
  { sampleUpdate with name := "nginx-2" }

/-- A dummy policy used as fallback when destructuring concrete runs. -/
def fallbackPolicy : PackagePolicy :=
  { toPackagePolicySOAttributes :=
      { toNewPackagePolicy :=
          { name := "", description := none, policyNamespace := "", enabled := false,
            policy_id := "", output_id := "", package := none, inputs := [] },
        revision := 0, created_at := "", created_by := "",
        updated_at := "", updated_by := "" },
    id := "", version := none }

/-- The concrete create run used as the C1 example. -/
def c1Run : Except Err (PackagePolicy × State) :=
  create sampleEnv sampleState samplePolicy "fresh1" "t0" {}

/-- The policy returned by `c1Run`. -/
def c1Res : PackagePolicy :=
  match c1Run with
  | .ok pair => pair.1
  | .error _ => fallbackPolicy

/-- The state left by `c1Run`. -/
def c1St : State :=
  match c1Run with
  | .ok pair => pair.2
  | .error _ => sampleState

/-- The concrete create run used as the C9 example. -/
def c9Run : Except Err (PackagePolicy × State) :=
  create sampleEnv sampleState samplePolicy "fresh9" "t9" {}

/-- The policy returned by `c9Run`. -/
def c9Res : PackagePolicy :=
  match c9Run with
  | .ok pair => pair.1
  | .error _ => fallbackPolicy

/-- The state left by `c9Run`. -/
def c9St : State :=
  match c9Run with
  | .ok pair => pair.2
  | .error _ => sampleState

/-- The two successive updates of `p1` used as the C2 example. -/
def c2Updates : List (UpdatePackagePolicy × String × Option String) :=
  [(sampleUpdate, "t1", none), (sampleUpdate, "t2", none)]

/-- The state after the two C2 updates. -/
def c2St : State :=
  match iterateUpdates sampleEnv sampleState2 "p1" c2Updates with
  | .ok st => st
  | .error _ => sampleState2

/-! ## Claims -/

/-- C1: for every successful create of a package policy, the persisted and
returned record has revision 1, its created_at/created_by and
updated_at/updated_by stamped with the single timestamp and the acting user
(actor `"system"` when no user is supplied), and every stream of every input
carries the derived identifier
`{input.type}-{stream.data_stream.dataset}-{packagePolicyId}` where the policy
id is the supplied id or the freshly generated one. -/
theorem c1_create_revision_one_and_stream_ids {env : Env} {st : State}
    {packagePolicy : NewPackagePolicy} {freshId now : String} {options : CreateOptions}
    {res : PackagePolicy} {st' : State}
    (h : create env st packagePolicy freshId now options = .ok (res, st')) :
    res.revision = 1 ∧
    res.id = jsOr options.id freshId ∧
    res.created_at = now ∧ res.created_by = jsUser options.user ∧
    res.updated_at = now ∧ res.updated_by = jsUser options.user ∧
    (∀ input ∈ res.inputs, ∀ stream ∈ input.streams,
      stream.id = some (input.type ++ "-" ++ stream.data_stream.dataset ++ "-" ++ res.id)) ∧
    soGet st' res.id =
      some { id := res.id, soVersion := 1, attributes := res.toPackagePolicySOAttributes } := by
  obtain ⟨h1, h2, h3, h4, h5, h6, h7, h8⟩ := create_ok_spec h
  exact ⟨h2, h1, h3, h5, h4, h6, h7, h8⟩

/-- Witness for C1: a concrete successful create with a package reference;
revision is 1, the id is the fresh one, and both stamps carry the single
timestamp and the `"system"` actor. -/
theorem c1_witness :
    c1Res.revision = 1 ∧ c1Res.id = "fresh1" ∧
    c1Res.created_at = "t0" ∧ c1Res.created_by = "system" ∧
    c1Res.updated_at = "t0" ∧ c1Res.updated_by = "system" := by
  have h : create sampleEnv sampleState samplePolicy "fresh1" "t0" {} =
      Except.ok (c1Res, c1St) := by decide
  obtain ⟨h1, h2, h3, h4, h5, h6, _, _⟩ := c1_create_revision_one_and_stream_ids h
  exact ⟨h1, h2, h3, h4, h5, h6⟩

/-- C9: every record persisted by create satisfies
`created_at = updated_at` and `created_by = updated_by`: the same timestamp
(taken once before persisting) and the same actor name are written to both
the creation and update fields. -/
theorem c9_create_stamps_equal {env : Env} {st : State}
    {packagePolicy : NewPackagePolicy} {freshId now : String} {options : CreateOptions}
    {res : PackagePolicy} {st' : State}
    (h : create env st packagePolicy freshId now options = .ok (res, st')) :
    res.created_at = res.updated_at ∧ res.created_by = res.updated_by ∧
    ∃ so, soGet st' res.id = some so ∧
      so.attributes.created_at = so.attributes.updated_at ∧
      so.attributes.created_by = so.attributes.updated_by ∧
      so.attributes.created_at = now := by
  obtain ⟨h1, h2, h3, h4, h5, h6, h7, h8⟩ := create_ok_spec h
  refine ⟨by rw [h3, h4], by rw [h5, h6], _, h8, ?_, ?_, ?_⟩
  · show res.created_at = res.updated_at
    rw [h3, h4]
  · show res.created_by = res.updated_by
    rw [h5, h6]
  · exact h3

/-- Witness for C9: the concrete create of the C1 scenario run at another
timestamp; both stamps agree on the returned record. -/
theorem c9_witness :
    c9Res.created_at = c9Res.updated_at ∧ c9Res.created_by = c9Res.updated_by := by
  have h : create sampleEnv sampleState samplePolicy "fresh9" "t9" {} =
      Except.ok (c9Res, c9St) := by decide
  obtain ⟨h1, h2, _⟩ := c9_create_stamps_equal h
  exact ⟨h1, h2⟩

/-- C2: for every successful update, the persisted revision equals the
stored policy's revision plus one, and each successful update appends exactly
one entry to the agent-policy revision-bump log; hence `n` successive
successful updates of a policy stored at revision 1 end at revision `n + 1`
with `n` bump calls. -/
theorem c2_update_increments_revision_and_bumps_once :
    (∀ (env : Env) (st : State) (id : String) (packagePolicy : UpdatePackagePolicy)
        (now : String) (user : Option String) (res : PackagePolicy) (st' : State),
      update env st id packagePolicy now user = .ok (res, st') →
      ∃ so, soGet st id = some so ∧
        res.revision = so.attributes.revision + 1 ∧
        soRevision st' id = some (so.attributes.revision + 1) ∧
        st'.bumpLog = st.bumpLog ++ [packagePolicy.policy_id]) ∧
    (∀ (env : Env) (st : State) (id : String)
        (ps : List (UpdatePackagePolicy × String × Option String)) (st' : State),
      soRevision st id = some 1 →
      iterateUpdates env st id ps = .ok st' →
      soRevision st' id = some (ps.length + 1) ∧
      st'.bumpLog.length = st.bumpLog.length + ps.length) := by
  constructor
  · intro env st id packagePolicy now user res st' h
    obtain ⟨so, hso, hrev, _, _, _, _, hrev1, hbump⟩ := update_ok_spec h
    exact ⟨so, hso, hrev, hrev1, hbump⟩
  · intro env st id ps st' hrev hit
    rcases iterateUpdates_revision ps st 1 st' hrev hit with ⟨h1, h2⟩
    rw [Nat.add_comm] at h1
    exact ⟨h1, h2⟩

/-- Witness for C2: two successive updates of the stored policy `p1`
(revision 1) end at stored revision 3 with two bump-log entries. -/
theorem c2_witness :
    soRevision c2St "p1" = some 3 ∧ c2St.bumpLog.length = 2 := by
  have h : iterateUpdates sampleEnv sampleState2 "p1" c2Updates = Except.ok c2St := by decide
  rcases c2_update_increments_revision_and_bumps_once.2 sampleEnv sampleState2 "p1"
    c2Updates c2St (by decide) h with ⟨h1, h2⟩
  exact ⟨h1, by rw [h2]; decide⟩

/-- C3: create fails with the duplicate-name conflict whenever the target
agent policy already has a sibling package policy with the same name, for
every environment and regardless of whether the new policy references a
package — the name check precedes any package installation or compilation. -/
theorem c3_create_duplicate_name_conflict {env : Env} {st : State}
    {packagePolicy : NewPackagePolicy} {freshId now : String} {options : CreateOptions}
    {parentAgentPolicy : AgentPolicy}
    (hget : agentPolicyServiceGet st packagePolicy.policy_id = some parentAgentPolicy)
    (hmanaged : parentAgentPolicy.is_managed = false)
    (hdup : ∃ sibling ∈ parentAgentPolicy.package_policies, sibling.name = packagePolicy.name) :
    create env st packagePolicy freshId now options = .error .duplicateName ∧
    Err.message .duplicateName =
      "There is already a package with the same name on this agent policy" ∧
    Err.isIngestManagerError .duplicateName = false := by
  rcases hdup with ⟨sibling, hmem, hname⟩
  have hfind : (parentAgentPolicy.package_policies.find?
      (fun siblingPackagePolicy => siblingPackagePolicy.name == packagePolicy.name)).isSome
        = true :=
    List.find?_isSome.2 ⟨sibling, hmem, by simp [hname]⟩
  refine ⟨?_, rfl, rfl⟩
  rw [create, hget]
  simp [hmanaged, hfind]

/-- Witness for C3: a concrete create against an agent policy that already
holds a sibling named `nginx-1`, with a package reference present, fails with
the duplicate-name conflict. -/
theorem c3_witness :
    create sampleEnv sampleState2 samplePolicy "fresh3" "t3" {} = .error .duplicateName :=
  (@c3_create_duplicate_name_conflict sampleEnv sampleState2 samplePolicy "fresh3" "t3" {}
    { id := "ap1", is_managed := false, package_policies := [soToPackagePolicy sampleStoredSo] }
    (by decide) (by decide)
    ⟨soToPackagePolicy sampleStoredSo, by decide, by decide⟩).1

/-- C7: update fails with the duplicate-name error exactly when some
sibling with a different id carries the requested name; keeping the policy's
own name never triggers the conflict, and update also fails when the policy
or the target agent policy is missing or the agent policy is managed. -/
theorem c7_update_duplicate_name_conditions :
    (∀ (env : Env) (st : State) (id : String) (packagePolicy : UpdatePackagePolicy)
        (now : String) (user : Option String),
      packagePolicyGet st id = none →
      update env st id packagePolicy now user = .error .packagePolicyNotFound) ∧
    (∀ (env : Env) (st : State) (id : String) (packagePolicy : UpdatePackagePolicy)
        (now : String) (user : Option String) (old : PackagePolicy),
      packagePolicyGet st id = some old →
      agentPolicyServiceGet st packagePolicy.policy_id = none →
      update env st id packagePolicy now user = .error .agentPolicyNotFound) ∧
    (∀ (env : Env) (st : State) (id : String) (packagePolicy : UpdatePackagePolicy)
        (now : String) (user : Option String) (old : PackagePolicy) (ap : AgentPolicy),
      packagePolicyGet st id = some old →
      agentPolicyServiceGet st packagePolicy.policy_id = some ap →
      ap.is_managed = true →
      update env st id packagePolicy now user = .error (.managedPolicyUpdate id)) ∧
    (∀ (env : Env) (st : State) (id : String) (packagePolicy : UpdatePackagePolicy)
        (now : String) (user : Option String) (old : PackagePolicy) (ap : AgentPolicy),
      packagePolicyGet st id = some old →
      agentPolicyServiceGet st packagePolicy.policy_id = some ap →
      ap.is_managed = false →
      (∃ sibling ∈ ap.package_policies, sibling.id ≠ id ∧ sibling.name = packagePolicy.name) →
      update env st id packagePolicy now user = .error .duplicateName) ∧
    (∀ (env : Env) (st : State) (id : String) (packagePolicy : UpdatePackagePolicy)
        (now : String) (user : Option String),
      (∀ ap, agentPolicyServiceGet st packagePolicy.policy_id = some ap →
        ∀ sibling ∈ ap.package_policies, sibling.name = packagePolicy.name → sibling.id = id) →
      update env st id packagePolicy now user ≠ .error .duplicateName) := by
  refine ⟨?_, ?_, ?_, ?_, ?_⟩
  · intro env st id packagePolicy now user hnone
    rw [update, hnone]
  · intro env st id packagePolicy now user old hold hap
    rw [update, hold, hap]
  · intro env st id packagePolicy now user old ap hold hap hman
    rw [update, hold, hap]
    simp [hman]
  · intro env st id packagePolicy now user old ap hold hap hman hdup
    rcases hdup with ⟨sibling, hmem, hid, hname⟩
    have hfind : (ap.package_policies.find?
        (fun siblingPackagePolicy => siblingPackagePolicy.id != id
          && siblingPackagePolicy.name == packagePolicy.name)).isSome = true :=
      List.find?_isSome.2 ⟨sibling, hmem, by simp [hid, hname]⟩
    rw [update, hold, hap]
    simp [hman, hfind]
  · intro env st id packagePolicy now user hno hc
    rw [update] at hc
    split at hc
    · cases hc
    · next old hold =>
      split at hc
      · cases hc
      · next ap hap =>
        split at hc
        · cases hc
        · split at hc
          · next hfind =>
            rcases List.find?_isSome.1 hfind with ⟨sibling, hmem, hpred⟩
            have h2 : sibling.id ≠ id ∧ sibling.name = packagePolicy.name := by
              simpa [Bool.and_eq_true, bne_iff_ne, beq_iff_eq] using hpred
            exact h2.1 (hno ap hap sibling hmem h2.2)
          · split at hc
            · next e heq =>
              cases hc
              exact updateCompileStep_error_ne_dup heq rfl
            · split at hc
              · next e heq =>
                cases hc
                rcases soUpdate_error heq with h1 | h1 <;> cases h1
              · split at hc
                · cases hc
                · cases hc

/-- Witness for C7: an update of `p1` that requests the name of the other
sibling `p2` fails with the duplicate-name error. -/
theorem c7_witness :
    update sampleEnv c7State "p1" c7Update "t7" none = .error .duplicateName :=
  c7_update_duplicate_name_conditions.2.2.2.1 sampleEnv c7State "p1" c7Update "t7" none
    (soToPackagePolicy sampleStoredSo) c7AgentPolicy (by decide) (by decide) (by decide)
    ⟨soToPackagePolicy c7OtherSo, by decide, by decide, by decide⟩

/-- C4: delete yields exactly one result entry per input id, in order; a
fetched-and-deleted id yields `{id, name, success := true}` and the remaining
ids are processed from the post-delete state, while a failing id yields a
`success := false` entry carrying the error and the remaining ids are still
processed (sequential, no rollback); a missing policy makes the per-id step
throw `Package policy not found`. -/
theorem c4_delete_per_id_results :
    (∀ (st : State) (ids : List String) (options : DeleteOptions),
      (delete st ids options).1.map (fun e => e.id) = ids) ∧
    (∀ (st : State) (id : String) (rest : List String) (options : DeleteOptions)
        (name : String) (st1 : State),
      deleteOne st id options = .ok (name, st1) →
      delete st (id :: rest) options =
        ({ id := id, name := some name, success := true, error := none }
           :: (delete st1 rest options).1,
         (delete st1 rest options).2)) ∧
    (∀ (st : State) (id : String) (rest : List String) (options : DeleteOptions) (e : Err),
      deleteOne st id options = .error e →
      delete st (id :: rest) options =
        ({ id := id, name := none, success := false, error := some e }
           :: (delete st rest options).1,
         (delete st rest options).2)) ∧
    (∀ (st : State) (id : String) (options : DeleteOptions),
      packagePolicyGet st id = none →
      deleteOne st id options = .error .packagePolicyNotFound) :=
  ⟨fun _ ids options => delete_map_id ids _ options,
   fun _ _ _ _ _ _ h => delete_head_success h,
   fun _ _ _ _ _ h => delete_head_failure h,
   fun _ _ _ h => deleteOne_not_found h⟩

/-- Witness for C4: deleting `["px", "p1"]` where `px` is missing yields one
entry per id in order, the first failed, and the rest still processed. -/
theorem c4_witness :
    (delete sampleState2 ["px", "p1"] {}).1.map (fun e => e.id) = ["px", "p1"] ∧
    delete sampleState2 ["px", "p1"] {} =
      ({ id := "px", name := none, success := false,
         error := some .packagePolicyNotFound }
         :: (delete sampleState2 ["p1"] {}).1,
       (delete sampleState2 ["p1"] {}).2) := by
  constructor
  · exact c4_delete_per_id_results.1 sampleState2 ["px", "p1"] {}
  · exact c4_delete_per_id_results.2.2.1 sampleState2 "px" ["p1"] {} .packagePolicyNotFound
      (c4_delete_per_id_results.2.2.2 sampleState2 "px" {} (by decide))

/-- C5: per-stream compilation renders with
`Object.assign({}, input.vars, stream.vars)`: any key bound by the stream
takes the stream's value, any other key keeps the input's value, and for
input vars `{a: 1}` and stream vars `{a: 2, b: 3}` the effective bindings
are `{a: 2, b: 3}`. -/
theorem c5_stream_vars_override_input_vars :
    (∀ (env : Env) (rp : RegistryPackage) (pkg : PackageInfo) (input : PackagePolicyInput)
        (stream out : PackagePolicyInputStream),
      _compilePackageStream env rp pkg input stream = .ok out →
      stream.enabled = true →
      ∃ text, out.compiled_stream =
        some (env.compileTemplate (objectAssign (objectAssign [] input.vars) stream.vars)
          text)) ∧
    (∀ (base overlay : Vars) (k v : String),
      getVar overlay k = some v → getVar (objectAssign base overlay) k = some v) ∧
    (∀ (base overlay : Vars) (k : String),
      getVar overlay k = none → getVar (objectAssign base overlay) k = getVar base k) ∧
    objectAssign (objectAssign [] [("a", "1")]) [("a", "2"), ("b", "3")] =
      [("a", "2"), ("b", "3")] := by
  refine ⟨?_, ?_, ?_, by decide⟩
  · intro env rp pkg input stream out h henabled
    rw [_compilePackageStream] at h
    split at h
    · next hcond =>
      rw [henabled] at hcond
      simp at hcond
    · split at h
      · cases h
      · split at h
        · cases h
        · split at h
          · cases h
          · split at h
            · cases h
            · split at h
              · cases h
              · split at h
                · cases h
                · split at h
                  · cases h
                  · cases h
                    exact ⟨_, rfl⟩
  · intro base overlay k v hv
    rw [getVar_objectAssign, hv]
  · intro base overlay k hv
    rw [getVar_objectAssign, hv]

/-- The compiled stream of the concrete C5 scenario. -/
def c5Out : PackagePolicyInputStream :=
  match _compilePackageStream sampleEnv sampleRegistryPkg samplePkgInfo sampleInput
      sampleStream with
  | .ok out => out
  | .error _ => sampleStream

/-- Witness for C5: with input vars `{a: 1}` and stream vars `{a: 2, b: 3}`,
the merged bindings give `a = 2` and `b = 3`, and the concrete compiled
stream renders the template with exactly those bindings. -/
theorem c5_witness :
    getVar (objectAssign (objectAssign [] [("a", "1")]) [("a", "2"), ("b", "3")]) "a"
      = some "2" ∧
    getVar (objectAssign (objectAssign [] [("a", "1")]) [("a", "2"), ("b", "3")]) "b"
      = some "3" ∧
    c5Out.compiled_stream = some (sampleEnv.compileTemplate
      (objectAssign (objectAssign [] sampleInput.vars) sampleStream.vars) "tmpl") := by
  refine ⟨?_, ?_, by decide⟩
  · exact c5_stream_vars_override_input_vars.2.1 (objectAssign [] [("a", "1")])
      [("a", "2"), ("b", "3")] "a" "2" (by decide)
  · exact c5_stream_vars_override_input_vars.2.1 (objectAssign [] [("a", "1")])
      [("a", "2"), ("b", "3")] "b" "3" (by decide)

/-- C6: a disabled input compiles to an absent compiled-input artifact and
a disabled stream compiles to the stream with `compiled_stream` absent, for
every environment and package — in particular even when the package defines a
matching template, and without the result depending on any template asset. -/
theorem c6_disabled_input_and_stream_skip_compilation :
    (∀ (env : Env) (rp : RegistryPackage) (pkg : PackageInfo) (input : PackagePolicyInput),
      input.enabled = false →
      _compilePackagePolicyInput env rp pkg input = .ok none) ∧
    (∀ (env : Env) (rp : RegistryPackage) (pkg : PackageInfo) (input : PackagePolicyInput)
        (stream : PackagePolicyInputStream),
      stream.enabled = false →
      _compilePackageStream env rp pkg input stream =
        .ok { stream with compiled_stream := none }) := by
  constructor
  · intro env rp pkg input h
    rw [_compilePackagePolicyInput, if_pos (by simp [h])]
  · intro env rp pkg input stream h
    rw [_compilePackageStream, if_pos (by simp [h])]

/-- The disabled input of the C6 example. -/
def c6DisabledInput : PackagePolicyInput :=
  { sampleInput with enabled := false }

/-- The disabled stream of the C6 example. -/
def c6DisabledStream : PackagePolicyInputStream :=
  { sampleStream with enabled := false }

/-- Witness for C6: with the sample package (which defines both a matching
input template and a matching stream template), the disabled input and the
disabled stream still compile to absent artifacts. -/
theorem c6_witness :
    _compilePackagePolicyInput sampleEnv sampleRegistryPkg samplePkgInfo c6DisabledInput
      = .ok none ∧
    _compilePackageStream sampleEnv sampleRegistryPkg samplePkgInfo sampleInput
      c6DisabledStream = .ok { c6DisabledStream with compiled_stream := none } :=
  ⟨c6_disabled_input_and_stream_skip_compilation.1 sampleEnv sampleRegistryPkg samplePkgInfo
      c6DisabledInput rfl,
   c6_disabled_input_and_stream_skip_compilation.2 sampleEnv sampleRegistryPkg samplePkgInfo
      sampleInput c6DisabledStream rfl⟩

/-- C8: with zero registered callbacks for the given kind,
`runExternalCallbacks` returns the input policy unchanged, for every policy
and callback kind. -/
theorem c8_run_external_callbacks_empty_identity {env : Env} {t : CallbackType}
    {newPackagePolicy : NewPackagePolicy}
    (h : env.getExternalCallbacks t = []) :
    runExternalCallbacks env t newPackagePolicy = .ok newPackagePolicy := by
  simp [runExternalCallbacks, h]

/-- Witness for C8: the sample environment registers no callbacks, and
`runExternalCallbacks` for the create kind returns the policy unchanged. -/
theorem c8_witness :
    runExternalCallbacks sampleEnv CallbackType.packagePolicyCreate samplePolicy
      = .ok samplePolicy :=
  c8_run_external_callbacks_empty_identity rfl

/-- C10: every record persisted by bulkCreate carries the `agentPolicyId`
argument as its `policy_id`, regardless of the `policy_id` values of the
input policies, and all records of one batch share the single batch
timestamp (and revision 1). -/
theorem c10_bulkCreate_overwrites_policy_id {st : State}
    {packagePolicies : List NewPackagePolicy} {agentPolicyId : String}
    {freshIds : List String} {now : String} {user : Option String} {bump : Option Bool}
    {res : List PackagePolicy} {st' : State}
    (h : bulkCreate st packagePolicies agentPolicyId freshIds now user bump = (res, st')) :
    (∀ p ∈ res, p.policy_id = agentPolicyId ∧ p.revision = 1 ∧
      p.created_at = now ∧ p.updated_at = now) ∧
    ∃ extra, st'.savedObjects = st.savedObjects ++ extra ∧
      ∀ so ∈ extra, so.attributes.policy_id = agentPolicyId ∧
        so.attributes.created_at = now ∧ so.attributes.updated_at = now := by
  rw [bulkCreate] at h
  injection h with h1 h2
  subst h1
  subst h2
  constructor
  · intro p hp
    rcases List.mem_map.1 hp with ⟨so, hso, rfl⟩
    rcases (soBulkCreate_spec
      (bulkCreateItems packagePolicies agentPolicyId freshIds now user) st).1 so hso
      with ⟨it, hit, hattr⟩
    obtain ⟨f1, f2, f3, f4, _, _⟩ := bulkCreateItems_fields it hit
    refine ⟨?_, ?_, ?_, ?_⟩
    · show so.attributes.policy_id = _
      rw [hattr]
      exact f1
    · show so.attributes.revision = _
      rw [hattr]
      exact f4
    · show so.attributes.created_at = _
      rw [hattr]
      exact f2
    · show so.attributes.updated_at = _
      rw [hattr]
      exact f3
  · rcases (soBulkCreate_spec
      (bulkCreateItems packagePolicies agentPolicyId freshIds now user) st).2
      with ⟨extra, hex, hmem⟩
    refine ⟨extra, hex, ?_⟩
    intro so hso
    rcases hmem so hso with ⟨it, hit, hattr⟩
    obtain ⟨f1, f2, f3, _, _, _⟩ := bulkCreateItems_fields it hit
    exact ⟨by rw [hattr]; exact f1, by rw [hattr]; exact f2, by rw [hattr]; exact f3⟩

/-- A policy whose own `policy_id` points at a different agent policy. -/
def c10Policy : NewPackagePolicy :=
  { samplePolicy with package := none, policy_id := "other" }

/-- The policies returned by the concrete C10 batch. -/
def c10Res : List PackagePolicy :=
  (bulkCreate sampleState [c10Policy] "ap1" ["b1"] "tb" none none).1

/-- Witness for C10: a batch of one policy whose `policy_id` is `"other"` is
persisted with `policy_id = "ap1"` (the argument) and the batch timestamp. -/
theorem c10_witness :
    (c10Res.headD fallbackPolicy).policy_id = "ap1" ∧
    (c10Res.headD fallbackPolicy).created_at = "tb" ∧
    (c10Res.headD fallbackPolicy).updated_at = "tb" := by
  have h := (c10_bulkCreate_overwrites_policy_id
    (rfl : bulkCreate sampleState [c10Policy] "ap1" ["b1"] "tb" none none =
      ((bulkCreate sampleState [c10Policy] "ap1" ["b1"] "tb" none none).1,
       (bulkCreate sampleState [c10Policy] "ap1" ["b1"] "tb" none none).2))).1
    (c10Res.headD fallbackPolicy) (by decide)
  exact ⟨h.1, h.2.2.1, h.2.2.2⟩

end Fleet
